import Mathlib

/-!
Verification of the resilient batch-geocoding core of CityInfraXLS.

This file gives a shallow embedding, in Lean 4, of the retry/batch logic in
`src/utils/retry_handler.py` and `src/utils/batch_geocoder.py`, and proves or
refutes the frozen specification claims about it.

Modelling conventions:
* Python floats are modelled as `Rat` (the code only relies on exact
  arithmetic: products, powers, `min`, interval membership).
* Python exceptions are modelled by `PyError`, a pair of a type tag
  (`ErrKind`, standing for the `isinstance` checks the code performs) and the
  message returned by `str(error)`.
* Fallible code returns `Except PyError`.
* Library randomness (`random.uniform`, `random.choice`, `random.seed`) is
  modelled by an abstract stream `u : Nat → Rat` of draws of `random.random()`
  indexed by the global generator state, which `random.seed` resets to the
  supplied seed; `hashlib.md5` is an abstract function `String → Nat`.
* The Excel store is modelled as in-memory tables: the `AssetGeodata` sheet as
  a list of rows, the remaining sheets as an association list from sheet name
  to a grid of cells.  Effectful reads and writes of the geodata table are
  counted explicitly so that "reads once / writes once" claims are statable.
-/

/-- Type tag of a Python exception, covering exactly the `isinstance` tests in
`RetryStrategy.should_retry`: `PermanentError`, `RetryableError`,
`ConnectionError`, `TimeoutError`, and every other exception type. -/
inductive ErrKind where
  | permanentError
  | retryableError
  | connectionError
  | timeoutError
  | otherError
deriving DecidableEq, Repr

/-- A raised Python exception: its type tag and its `str(error)` text. -/
structure PyError where
  kind : ErrKind
  msg : String
deriving DecidableEq, Repr

/-- Character-level lowercasing, modelling Python `str.lower()` on the ASCII
messages the classifier receives. -/
def strLower (s : String) : String := ⟨s.data.map Char.toLower⟩

/-- Character-level uppercasing, modelling Python `str.upper()`. -/
def strUpper (s : String) : String := ⟨s.data.map Char.toUpper⟩

/-- Substring test on character lists: `hasSubAux s t` is true when `t` occurs
contiguously inside `s` (Python `t in s`). -/
def hasSubAux : List Char → List Char → Bool
  | s, t =>
    if t.isPrefixOf s then true
    else
      match s with
      | [] => false
      | _ :: rest => hasSubAux rest t

/-- Python `t in s` on strings. -/
def containsSub (s t : String) : Bool := hasSubAux s.data t.data

/-- Python `any(term in error_str for term in terms)`. -/
def anyTerm (s : String) (terms : List String) : Bool :=
  terms.any (fun t => containsSub s t)

/-- Shallow embedding of `_categorize_error` (src/utils/retry_handler.py,
lines 352-390): lowercase-substring classification of `str(error)` into the
fixed taxonomy, first match wins, returning the category value together with
the original message. -/
def categorize_error (error : PyError) : String × String :=
  let error_str := strLower error.msg
  if anyTerm error_str ["rate limit", "quota", "too many requests", "429"] then
    ("RATE_LIMIT", error.msg)
  else if anyTerm error_str ["auth", "key", "credential", "permission", "401", "403"] then
    ("AUTH_ERROR", error.msg)
  else if anyTerm error_str ["invalid", "malformed", "syntax", "parameter", "400"] then
    ("INVALID_REQUEST", error.msg)
  else if anyTerm error_str ["not found", "no result", "zero result", "404"] then
    ("NOT_FOUND", error.msg)
  else if anyTerm error_str ["server", "internal", "500", "502", "503", "504"] then
    ("SERVER_ERROR", error.msg)
  else if anyTerm error_str ["network", "connection", "timeout", "connect"] then
    ("NETWORK_ERROR", error.msg)
  else
    ("UNKNOWN_ERROR", error.msg)

/-- Configuration of `RetryStrategy.__init__` (src/utils/retry_handler.py):
`max_retries`, `initial_delay`, `max_delay`, `backoff_factor`, `jitter`. -/
structure RetryStrategy where
  max_retries : Nat
  initial_delay : Rat
  max_delay : Rat
  backoff_factor : Rat
  jitter : Bool
deriving DecidableEq, Repr

/-- The constructor defaults of `RetryStrategy`:
`max_retries=5, initial_delay=1.0, max_delay=60.0, backoff_factor=2.0,
jitter=True`. -/
def defaultRetryStrategy : RetryStrategy :=
  { max_retries := 5, initial_delay := 1, max_delay := 60, backoff_factor := 2, jitter := true }

/-- Shallow embedding of `RetryStrategy.get_retry_delay` (src/utils/
retry_handler.py, lines 54-76).  `u` is the draw of `random.random()` the
jitter branch consumes: `random.uniform(a, b)` is `a + (b - a) * u` with
`u ∈ [0, 1)`. -/
def get_retry_delay (s : RetryStrategy) (u : Rat) (attempt : Int) : Rat :=
  if attempt ≤ 0 then 0
  else
    let delay := min s.max_delay (s.initial_delay * s.backoff_factor ^ (attempt - 1).toNat)
    if s.jitter then delay * (3 / 4) + (delay * (5 / 4) - delay * (3 / 4)) * u
    else delay

/-- Shallow embedding of `RetryStrategy.should_retry` (src/utils/
retry_handler.py, lines 78-99): no retry once `attempt >= max_retries`, never
retry a `PermanentError`, otherwise retry exactly the `RetryableError`,
`ConnectionError` and `TimeoutError` types. -/
def should_retry (s : RetryStrategy) (attempt : Nat) (error : PyError) : Bool :=
  if s.max_retries ≤ attempt then false
  else if error.kind = ErrKind.permanentError then false
  else
    (error.kind = ErrKind.retryableError || error.kind = ErrKind.connectionError
      || error.kind = ErrKind.timeoutError)

theorem should_retry_lt (s : RetryStrategy) (a : Nat) (e : PyError)
    (h : should_retry s a e = true) : a < s.max_retries := by
  unfold should_retry at h
  split at h
  · simp at h
  · omega

/-- Identifying metadata passed to `with_retry` for logging, plus the wall
clock read by `log_attempt` (`datetime.now()`), abstracted as a function from
the attempt number to a timestamp string. -/
structure RetryMeta where
  asset_id : String
  address : String
  operation : String
  provider : String
  clock : Nat → String

/-- One row of the `GeocodeLog` audit sheet, as assembled by
`GeocodeLogger.log_attempt` (src/utils/retry_handler.py, lines 143-184). -/
structure LogRecord where
  timestamp : String
  asset_id : String
  address : String
  operation : String
  attempt : Nat
  status : String
  error_category : Option String
  error_message : Option String
  retry_delay : Option Rat
  provider : String
deriving DecidableEq, Repr

/-- The record `with_retry` logs for a successful attempt. -/
def successRecord (m : RetryMeta) (attempt : Nat) : LogRecord :=
  { timestamp := m.clock attempt, asset_id := m.asset_id, address := m.address,
    operation := m.operation, attempt := attempt, status := "success",
    error_category := none, error_message := none, retry_delay := none,
    provider := m.provider }

/-- The record `with_retry` logs for a failed attempt that will be retried. -/
def retryRecord (m : RetryMeta) (attempt : Nat) (e : PyError) (delay : Rat) : LogRecord :=
  { timestamp := m.clock attempt, asset_id := m.asset_id, address := m.address,
    operation := m.operation, attempt := attempt, status := "retry",
    error_category := some (categorize_error e).1,
    error_message := some (categorize_error e).2, retry_delay := some delay,
    provider := m.provider }

/-- The record `with_retry` logs for the final failed attempt. -/
def failedRecord (m : RetryMeta) (attempt : Nat) (e : PyError) : LogRecord :=
  { timestamp := m.clock attempt, asset_id := m.asset_id, address := m.address,
    operation := m.operation, attempt := attempt, status := "failed",
    error_category := some (categorize_error e).1,
    error_message := some (categorize_error e).2, retry_delay := none,
    provider := m.provider }

/-- The loop body of `with_retry` (src/utils/retry_handler.py, lines 254-349)
starting at attempt number `attempt`.  The operation under retry is modelled
by `ops : Nat → Except PyError A`, the outcome of the n-th invocation; `us`
supplies the `random.random()` draw consumed by the jitter branch of
`get_retry_delay` on each attempt.  Returns the list of audit records logged
(in order) together with the returned value or the re-raised error. -/
def with_retry_go {A : Type} (s : RetryStrategy) (us : Nat → Rat)
    (ops : Nat → Except PyError A) (m : RetryMeta) (attempt : Nat) :
    List LogRecord × Except PyError A :=
  match ops attempt with
  | Except.ok v => ([successRecord m attempt], Except.ok v)
  | Except.error e =>
    if h : should_retry s attempt e = true then
      let delay := get_retry_delay s (us attempt) (attempt : Int)
      let rest := with_retry_go s us ops m (attempt + 1)
      (retryRecord m attempt e delay :: rest.1, rest.2)
    else
      ([failedRecord m attempt e], Except.error e)
termination_by s.max_retries - attempt
decreasing_by
  have := should_retry_lt s attempt e h
  omega

/-- Shallow embedding of `with_retry`: the loop starts with `attempt = 0` and
increments before the first invocation, so the first attempt is number 1. -/
def with_retry {A : Type} (s : RetryStrategy) (us : Nat → Rat)
    (ops : Nat → Except PyError A) (m : RetryMeta) :
    List LogRecord × Except PyError A :=
  with_retry_go s us ops m 1

/-- The error object held by an `Except.error`, with a junk value on the
success side (only ever used where the failure side is known). -/
def errOf {A : Type} : Except PyError A → PyError
  | Except.ok _ => ⟨ErrKind.otherError, ""⟩
  | Except.error e => e

/-- The retry record `with_retry` logs at attempt `i`, as a function of the
operation outcome stream. -/
def retryRecAt {A : Type} (s : RetryStrategy) (us : Nat → Rat)
    (ops : Nat → Except PyError A) (m : RetryMeta) (i : Nat) : LogRecord :=
  retryRecord m i (errOf (ops i)) (get_retry_delay s (us i) (i : Int))

/-- The final record `with_retry` logs at attempt `i`, by the final outcome. -/
def finalRec {A : Type} (m : RetryMeta) (i : Nat) : Except PyError A → LogRecord
  | Except.ok _ => successRecord m i
  | Except.error e => failedRecord m i e

/-- In-memory state of a `GeocodeLogger`: the buffered records (`self.logs`)
and the records already persisted in the `GeocodeLog` sheet of the geodata
workbook. -/
structure LoggerState where
  logs : List LogRecord
  persisted : List LogRecord
deriving DecidableEq, Repr

/-- Shallow embedding of `GeocodeLogger.flush_logs` (src/utils/
retry_handler.py, lines 186-215).  `readFails` models the inner bare
`except` around `pd.read_excel` of the existing sheet (on failure the new
records alone are taken as the combined table); `writeFails` models the outer
`except Exception` around the `pd.ExcelWriter` rewrite, which the code
swallows after logging, leaving the buffer uncleared.  Returns the new state
and whether a write of the audit sheet was completed.  The function is total:
no exception escapes `flush_logs`. -/
def flush_logs (writeFails readFails : Bool) (st : LoggerState) : LoggerState × Bool :=
  if st.logs.isEmpty then (st, false)
  else
    let existing := if readFails then [] else st.persisted
    let combined := existing ++ st.logs
    if writeFails then (st, false)
    else ({ logs := [], persisted := combined }, true)

/-- Outcome of one provider call, as the status-tagged payload of the result
dict each `_geocode_*` function builds: an `OK` dict always carries latitude
and longitude and may carry `accuracy_meters` and `address_string`; the other
statuses carry no coordinates. -/
inductive GeoStatus where
  | ok (latitude : Rat) (longitude : Rat) (accuracy_meters : Option Rat)
      (address_string : Option String)
  | notFound
  | geoError (error_message : String)
  | notImplemented
  | otherStatus (s : String)
deriving DecidableEq, Repr

/-- Whether a provider outcome has status `"OK"`. -/
def GeoStatus.isOK : GeoStatus → Bool
  | GeoStatus.ok _ _ _ _ => true
  | _ => false

/-- One element of the result list assembled by `_process_asset_batch` and
consumed by `_update_geodata_with_results`: the asset id merged with the
provider outcome and the metadata added by `geocode_location`. -/
structure GeocodeResult where
  asset_id : String
  status : GeoStatus
  geocode_source : String
  geocode_timestamp : String
deriving DecidableEq, Repr

/-- One row of the persisted `AssetGeodata` sheet.  Cells other than the key
are optional, matching missing/NaN spreadsheet cells. -/
structure GeoRow where
  asset_id : String
  latitude : Option Rat
  longitude : Option Rat
  geocode_source : Option String
  geocode_timestamp : Option String
  validation_status : Option String
  accuracy_meters : Option Rat
  address_string : Option String
deriving DecidableEq, Repr

/-- The `update_data` dict built for one OK result in
`_update_geodata_with_results` (lines 363-379): the six mandatory keys, plus
`accuracy_meters` and `address_string` only when present in the result. -/
structure UpdateData where
  asset_id : String
  latitude : Rat
  longitude : Rat
  geocode_source : String
  geocode_timestamp : String
  validation_status : String
  accuracy_meters : Option Rat
  address_string : Option String
deriving DecidableEq, Repr

/-- The grouping loop of `_update_geodata_with_results` (lines 360-381): an OK
result yields an update dict with `validation_status = "UNVERIFIED"`; any
other status is only logged and yields nothing. -/
def toUpdate (r : GeocodeResult) : Option UpdateData :=
  match r.status with
  | GeoStatus.ok lat lng acc addr =>
    some { asset_id := r.asset_id, latitude := lat, longitude := lng,
           geocode_source := r.geocode_source,
           geocode_timestamp := r.geocode_timestamp,
           validation_status := "UNVERIFIED",
           accuracy_meters := acc, address_string := addr }
  | _ => none

/-- Applying one update dict to an existing row (`geodata_df.loc[...] = value`
for each key in the dict): every key present in the dict overwrites the cell,
keys absent from the dict leave the cell as it was. -/
def overwriteRow (u : UpdateData) (r : GeoRow) : GeoRow :=
  { asset_id := u.asset_id, latitude := some u.latitude,
    longitude := some u.longitude, geocode_source := some u.geocode_source,
    geocode_timestamp := some u.geocode_timestamp,
    validation_status := some u.validation_status,
    accuracy_meters := match u.accuracy_meters with
      | some a => some a
      | none => r.accuracy_meters,
    address_string := match u.address_string with
      | some a => some a
      | none => r.address_string }

/-- The fresh row `geodata_df.append(update, ignore_index=True)` creates for
an update dict: keys absent from the dict become empty cells. -/
def newRow (u : UpdateData) : GeoRow :=
  { asset_id := u.asset_id, latitude := some u.latitude,
    longitude := some u.longitude, geocode_source := some u.geocode_source,
    geocode_timestamp := some u.geocode_timestamp,
    validation_status := some u.validation_status,
    accuracy_meters := u.accuracy_meters,
    address_string := u.address_string }

/-- The per-update body of the merge loop (lines 403-417): if some row already
has the asset id, every such row is updated in place, otherwise a new row is
appended at the end. -/
def applyUpdate (u : UpdateData) (df : List GeoRow) : List GeoRow :=
  if df.any (fun r => r.asset_id == u.asset_id) then
    df.map (fun r => if r.asset_id == u.asset_id then overwriteRow u r else r)
  else
    df ++ [newRow u]

/-- An ancillary worksheet, as the grid of cells `pd.read_excel` yields:
header row first, then the data rows. -/
def Sheet : Type := List (List String)

instance : DecidableEq Sheet := by
  unfold Sheet
  infer_instance

instance : Repr Sheet := by
  unfold Sheet
  infer_instance

/-- Re-serialization of an ancillary sheet by
`sheet_df.to_excel(writer, sheet_name=sheet_name)` without `index=False`
(line 429): the row index is emitted as an extra leading column, so the
header gains an empty leading cell and data row `i` gains a leading `i`. -/
def reindexSheet (s : Sheet) : Sheet :=
  match s with
  | [] => []
  | header :: rows =>
    ("" :: header) :: (rows.enum.map (fun p => (toString p.1) :: p.2))

/-- The sheet-copy loop of the atomic save (lines 426-432): of all ancillary
sheets, only those named `Metadata` or `AllowedValues` (hardcoded) are copied
into the rewritten workbook, each through the index-adding re-serialization;
a name missing from the store is skipped by the inner `except`. -/
def preservedSheets (sheets : List (String × Sheet)) : List (String × Sheet) :=
  ["Metadata", "AllowedValues"].filterMap
    (fun n => (sheets.lookup n).map (fun s => (n, reindexSheet s)))

/-- The geodata workbook `data/asset_geodata.xlsx`: the `AssetGeodata` table
and the remaining sheets keyed by name. -/
structure GeodataFile where
  assetGeodata : List GeoRow
  otherSheets : List (String × Sheet)
deriving DecidableEq, Repr

/-- Result of one run of the store merge: the returned success count, the
resulting workbook, and how many reads and writes of the `AssetGeodata`
table were performed. -/
structure MergeOut where
  count : Nat
  store : GeodataFile
  reads : Nat
  writes : Nat
deriving DecidableEq, Repr

/-- Shallow embedding of `_update_geodata_with_results` (src/utils/
batch_geocoder.py, lines 348-440).  `ready` is the outcome of
`geo_manager.prepare_for_enrichment()` (a validation that reads the schema
and the assets file; on failure the merge aborts with 0 before touching the
geodata table).  Otherwise the `AssetGeodata` table is read once, every OK
result is folded into it in memory, and — only when at least one update was
applied — the whole workbook is rewritten in a single write that carries the
new table plus the hardcoded ancillary sheets. -/
def update_geodata_with_results (ready : Bool) (results : List GeocodeResult)
    (store : GeodataFile) : MergeOut :=
  let successful_updates := results.filterMap toUpdate
  if ready then
    let geodata_df := store.assetGeodata
    let updated := successful_updates.foldl (fun df u => applyUpdate u df) geodata_df
    let success_count := successful_updates.length
    if 0 < success_count then
      { count := success_count,
        store := { assetGeodata := updated,
                   otherSheets := preservedSheets store.otherSheets },
        reads := 1, writes := 1 }
    else
      { count := success_count, store := store, reads := 1, writes := 0 }
  else
    { count := 0, store := store, reads := 0, writes := 0 }

/-- One work item for the batch geocoder: an asset id and its free-text
location description. -/
structure Asset where
  asset_id : String
  location_description : String
deriving DecidableEq, Repr

/-- Shallow embedding of `BatchGeocoder.geocode_location` (lines 204-222):
the provider function applied to the location string, with the
`geocode_source` and `geocode_timestamp` metadata added.  `geocode` is the
selected provider function and `ts` the wall-clock timestamp. -/
def geocode_location (geocode : String → GeoStatus) (pname : String) (ts : String)
    (a : Asset) : GeocodeResult :=
  { asset_id := a.asset_id, status := geocode a.location_description,
    geocode_source := "API_" ++ strUpper pname, geocode_timestamp := ts }

/-- Shallow embedding of `_process_asset_batch` (lines 224-246): each asset of
the chunk is geocoded sequentially (after the rate-limit sleep, which has no
effect on the data) and the per-item results are collected in order. -/
def process_asset_batch (geocode : String → GeoStatus) (pname : String) (ts : String)
    (batch : List Asset) : List GeocodeResult :=
  batch.map (geocode_location geocode pname ts)

/-- Fuelled chunking helper, mirroring
`[assets[i:i+batch_size] for i in range(0, len(assets), batch_size)]`.
The fuel is the list length, which suffices whenever `1 ≤ k`. -/
def chunksOfAux {A : Type} (k : Nat) : Nat → List A → List (List A)
  | _, [] => []
  | 0, _ => []
  | fuel + 1, l => l.take k :: chunksOfAux k fuel (l.drop k)

/-- Partition of the asset list into chunks of `batch_size` (line 329). -/
def chunksOf {A : Type} (k : Nat) (l : List A) : List (List A) :=
  chunksOfAux k l.length l

/-- Result of one call of `run_geocoding_batch`: the returned pair
`(success_count, total_count)`, the resulting geodata workbook, and the read
and write counts of the `AssetGeodata` table. -/
structure RunOut where
  success : Nat
  total : Nat
  store : GeodataFile
  reads : Nat
  writes : Nat
deriving DecidableEq, Repr

/-- The truncation `assets[:max_assets]` of `run_geocoding_batch`
(lines 317-319). -/
def keptAssets (assets : List Asset) (max_assets : Option Nat) : List Asset :=
  match max_assets with
  | some mx => assets.take mx
  | none => assets

/-- Shallow embedding of `run_geocoding_batch` (src/utils/batch_geocoder.py,
lines 301-346) for an explicitly supplied asset list: optional truncation to
`max_assets`, the empty-list early return `(0, 0)`, chunking into batches of
`batch_size`, the worker pool (every chunk is mapped and the chunk result
lists are concatenated in submission order, which is how the code iterates
its futures), then the single store merge.  `ready` is the outcome of the
merge's `prepare_for_enrichment` validation. -/
def run_geocoding_batch (batch_size : Nat) (geocode : String → GeoStatus)
    (pname : String) (ts : String) (ready : Bool) (assets : List Asset)
    (max_assets : Option Nat) (store : GeodataFile) : RunOut :=
  let assets1 := keptAssets assets max_assets
  if assets1.isEmpty then
    { success := 0, total := 0, store := store, reads := 0, writes := 0 }
  else
    let batches := chunksOf batch_size assets1
    let all_results := (batches.map (process_asset_batch geocode pname ts)).flatten
    let merged := update_geodata_with_results ready all_results store
    { success := merged.count, total := assets1.length, store := merged.store,
      reads := merged.reads, writes := merged.writes }

/-- Shallow embedding of `_geocode_test` (src/utils/batch_geocoder.py, lines
183-202).  `md5` abstracts the stable hash
`int(hashlib.md5(location_str.encode()).hexdigest(), 16)`; `u` abstracts the
stream of `random.random()` draws indexed by the global generator state,
which `random.seed(hash_val)` resets to the hash, so the two `uniform` draws
and the `choice` draw depend only on the hash; `state` is the incoming global
generator state, which the reseeding discards.  `random.uniform(a, b)` is
`a + (b - a) * u` and `random.choice(seq)` picks index `floor(u * len(seq))`.
Returns the result dict together with the outgoing generator state. -/
def geocode_test (u : Nat → Rat) (md5 : String → Nat) (_state : Nat)
    (location_str : String) : GeoStatus × Nat :=
  let hash_val := md5 location_str
  let lat := 25 + (48 - 25) * u hash_val
  let lng := -125 + (-70 - -125) * u (hash_val + 1)
  let accuracy := ([10, 20, 50, 100, 500] : List Rat).getD
    ((u (hash_val + 2) * 5).floor.toNat) 10
  (GeoStatus.ok lat lng (some accuracy)
    (some ("Test Address for: " ++ location_str)), hash_val + 3)

theorem should_retry_false_of_ge (s : RetryStrategy) (a : Nat) (e : PyError)
    (h : s.max_retries ≤ a) : should_retry s a e = false := by
  unfold should_retry
  rw [if_pos h]

theorem with_retry_go_spec {A : Type} (s : RetryStrategy) (us : Nat → Rat)
    (ops : Nat → Except PyError A) (m : RetryMeta) :
    ∀ (n a : Nat), s.max_retries ≤ a + n →
      ∃ k,
        (with_retry_go s us ops m a).1 =
          (List.range k).map (fun j => retryRecAt s us ops m (a + j)) ++
            [finalRec m (a + k) (with_retry_go s us ops m a).2] ∧
        (∀ j, j < k → should_retry s (a + j) (errOf (ops (a + j))) = true ∧
            ∃ e, ops (a + j) = Except.error e) ∧
        (match (with_retry_go s us ops m a).2 with
         | Except.ok v => ops (a + k) = Except.ok v
         | Except.error e =>
             ops (a + k) = Except.error e ∧ should_retry s (a + k) e = false) := by
  intro n
  induction n with
  | zero =>
    intro a hn
    rw [with_retry_go]
    rcases hop : ops a with e | v
    · have hsr : should_retry s a e = false :=
        should_retry_false_of_ge s a e (by omega)
      refine ⟨0, ?_, ?_, ?_⟩
      · simp [hsr, finalRec]
      · intro j hj
        omega
      · simp [hsr, hop]
    · refine ⟨0, ?_, ?_, ?_⟩
      · simp [finalRec]
      · intro j hj
        omega
      · simp [hop]
  | succ n ih =>
    intro a hn
    rw [with_retry_go]
    rcases hop : ops a with e | v
    · by_cases hsr : should_retry s a e = true
      · obtain ⟨k, h1, h2, h3⟩ := ih (a + 1) (by omega)
        refine ⟨k + 1, ?_, ?_, ?_⟩
        · simp only [hsr, dite_true, h1, List.range_succ_eq_map, List.map_cons,
            List.map_map, List.cons_append]
          congr 1
          · simp [retryRecAt, hop, errOf]
          congr 1
          · apply List.map_congr_left
            intro j _
            simp only [Function.comp]
            rw [show a + (j + 1) = a + 1 + j from by omega]
          · rw [show a + (k + 1) = a + 1 + k from by omega]
        · intro j hj
          cases j with
          | zero =>
            refine ⟨?_, ⟨e, by simpa using hop⟩⟩
            simpa [errOf, hop] using hsr
          | succ j' =>
            have := h2 j' (by omega)
            constructor
            · rw [show a + (j' + 1) = a + 1 + j' from by omega]
              exact this.1
            · rw [show a + (j' + 1) = a + 1 + j' from by omega]
              exact this.2
        · simp only [hsr, dite_true]
          rw [show a + (k + 1) = a + 1 + k from by omega]
          exact h3
      · have hsr' : should_retry s a e = false := by
          revert hsr
          cases should_retry s a e <;> simp
        refine ⟨0, ?_, ?_, ?_⟩
        · simp [hsr', finalRec]
        · intro j hj
          omega
        · simp [hsr', hop]
    · refine ⟨0, ?_, ?_, ?_⟩
      · simp [finalRec]
      · intro j hj
        omega
      · simp [hop]

/-- Draw stream for the jitter branch that always returns 0 (jitter is
disabled in every concrete configuration below, so the value is inert). -/
def zeroDraws : Nat → Rat := fun _ => 0

/-- Concrete logging metadata used by concrete instances below. -/
def testMeta : RetryMeta :=
  { asset_id := "A-001", address := "12 Main St", operation := "geocode",
    provider := "test", clock := fun _ => "2026-01-01T00:00:00" }

/-- An operation that raises a `ConnectionError` on every attempt. -/
def alwaysConnError : Nat → Except PyError Nat :=
  fun _ => Except.error ⟨ErrKind.connectionError, "connection refused"⟩

/-- C3: for every attempt number and every error, `should_retry` returns
false whenever `attempt ≥ max_retries` regardless of the error; returns false
when the error is a `PermanentError`; otherwise returns true exactly when the
error is a `RetryableError`, a `ConnectionError` or a `TimeoutError`; and its
value never depends on the message text, hence not on the category
`_categorize_error` would assign. -/
theorem should_retry_spec (s : RetryStrategy) (a : Nat) (e : PyError) :
    (s.max_retries ≤ a → should_retry s a e = false) ∧
    (e.kind = ErrKind.permanentError → should_retry s a e = false) ∧
    (a < s.max_retries → e.kind ≠ ErrKind.permanentError →
      (should_retry s a e = true ↔
        (e.kind = ErrKind.retryableError ∨ e.kind = ErrKind.connectionError ∨
          e.kind = ErrKind.timeoutError))) ∧
    (∀ msg2 : String, should_retry s a e = should_retry s a ⟨e.kind, msg2⟩) := by
  refine ⟨?_, ?_, ?_, ?_⟩
  · intro h
    exact should_retry_false_of_ge s a e h
  · intro h
    unfold should_retry
    simp [h]
  · intro h1 h2
    unfold should_retry
    rw [if_neg (by omega), if_neg h2]
    simp [or_assoc]
  · intro msg2
    rfl

/-- Witness for C3: the default strategy denies a retryable error at
attempt 5 = max_retries. -/
theorem should_retry_spec_witness :
    should_retry defaultRetryStrategy 5 ⟨ErrKind.retryableError, "timed out"⟩ = false :=
  (should_retry_spec defaultRetryStrategy 5 ⟨ErrKind.retryableError, "timed out"⟩).1
    (by decide)

/-- C5: `_categorize_error` is a pure total function of the error message: it
returns the original message unchanged, ignores the exception type, and
classifies by lowercase substring match in the fixed precedence order
RATE_LIMIT, AUTH_ERROR, INVALID_REQUEST, NOT_FOUND, SERVER_ERROR,
NETWORK_ERROR with UNKNOWN_ERROR as the default, first match winning — in
particular on the seven sample messages of the claim, and on a message
matching both the AUTH_ERROR and SERVER_ERROR term lists the earlier
category wins. -/
theorem categorize_error_spec (e : PyError) :
    (categorize_error e).2 = e.msg ∧
    (∀ k : ErrKind, categorize_error ⟨k, e.msg⟩ = categorize_error e) ∧
    categorize_error ⟨ErrKind.otherError, "Rate limit exceeded"⟩ =
      ("RATE_LIMIT", "Rate limit exceeded") ∧
    categorize_error ⟨ErrKind.otherError, "HTTP 401 Unauthorized"⟩ =
      ("AUTH_ERROR", "HTTP 401 Unauthorized") ∧
    categorize_error ⟨ErrKind.otherError, "400 Bad request"⟩ =
      ("INVALID_REQUEST", "400 Bad request") ∧
    categorize_error ⟨ErrKind.otherError, "Not found"⟩ =
      ("NOT_FOUND", "Not found") ∧
    categorize_error ⟨ErrKind.otherError, "Internal server error 500"⟩ =
      ("SERVER_ERROR", "Internal server error 500") ∧
    categorize_error ⟨ErrKind.otherError, "Network connectivity failed"⟩ =
      ("NETWORK_ERROR", "Network connectivity failed") ∧
    categorize_error ⟨ErrKind.otherError, "Some other error"⟩ =
      ("UNKNOWN_ERROR", "Some other error") ∧
    categorize_error ⟨ErrKind.otherError, "Unauthorized internal server error"⟩ =
      ("AUTH_ERROR", "Unauthorized internal server error") := by
  refine ⟨?_, ?_, by decide, by decide, by decide, by decide, by decide, by decide,
    by decide, by decide⟩
  · simp only [categorize_error]
    split_ifs <;> rfl
  · intro k
    rfl

/-- The strategy of the worked example in the claim: initial_delay = 1,
backoff_factor = 2, max_delay = 60, jitter disabled. -/
def exampleStrategy : RetryStrategy :=
  { max_retries := 5, initial_delay := 1, max_delay := 60, backoff_factor := 2,
    jitter := false }

/-- A strategy with backoff_factor = 1/2 and jitter disabled. -/
def decreasingStrategy : RetryStrategy :=
  { max_retries := 5, initial_delay := 1, max_delay := 60, backoff_factor := 1 / 2,
    jitter := false }

/-- C6 counterexample: with `backoff_factor = 1/2` (a legal configuration)
and jitter disabled, `get_retry_delay` strictly decreases from attempt 1 to
attempt 2, so the unjittered delay is not non-decreasing in the attempt for
every strategy configuration as the claim states. -/
theorem get_retry_delay_not_monotone :
    get_retry_delay decreasingStrategy 0 2 < get_retry_delay decreasingStrategy 0 1 := by
  norm_num [get_retry_delay, decreasingStrategy, min_def]

/-- C6 (amended): `get_retry_delay` returns 0 for every attempt ≤ 0; for
attempt ≥ 1 with jitter disabled it returns
`min(max_delay, initial_delay * backoff_factor^(attempt-1))`, which is capped
at `max_delay`; this unjittered delay is non-decreasing in the attempt for
every configuration with `initial_delay ≥ 0` and `backoff_factor ≥ 1` (the
counterexample shows the restriction on `backoff_factor` is necessary); and
on the worked example initial_delay=1, factor=2 it gives delay(1)=1,
delay(2)=2, delay(3)=4, delay(10)=max_delay=60. -/
theorem get_retry_delay_spec (s : RetryStrategy) (u : Rat) (a : Int) :
    (a ≤ 0 → get_retry_delay s u a = 0) ∧
    (s.jitter = false → 1 ≤ a →
      get_retry_delay s u a =
        min s.max_delay (s.initial_delay * s.backoff_factor ^ (a - 1).toNat)) ∧
    (s.jitter = false → 1 ≤ a → get_retry_delay s u a ≤ s.max_delay) ∧
    (s.jitter = false → 0 ≤ s.initial_delay → 1 ≤ s.backoff_factor → 1 ≤ a →
      get_retry_delay s u a ≤ get_retry_delay s u (a + 1)) ∧
    (get_retry_delay exampleStrategy 0 1 = 1 ∧
      get_retry_delay exampleStrategy 0 2 = 2 ∧
      get_retry_delay exampleStrategy 0 3 = 4 ∧
      get_retry_delay exampleStrategy 0 10 = 60) := by
  have hval : ∀ (t : RetryStrategy) (w : Rat) (b : Int), t.jitter = false → 1 ≤ b →
      get_retry_delay t w b =
        min t.max_delay (t.initial_delay * t.backoff_factor ^ (b - 1).toNat) := by
    intro t w b hj hb
    unfold get_retry_delay
    rw [if_neg (by omega)]
    simp [hj]
  refine ⟨?_, hval s u a, ?_, ?_, ?_⟩
  · intro h
    unfold get_retry_delay
    rw [if_pos h]
  · intro hj ha
    rw [hval s u a hj ha]
    exact min_le_left _ _
  · intro hj hd hf ha
    rw [hval s u a hj ha, hval s u (a + 1) hj (by omega)]
    refine min_le_min le_rfl ?_
    refine mul_le_mul_of_nonneg_left ?_ hd
    refine pow_le_pow_right₀ hf ?_
    omega
  · have h2 : ((2 : Int)).toNat = 2 := rfl
    have h9 : ((9 : Int)).toNat = 9 := rfl
    refine ⟨?_, ?_, ?_, ?_⟩ <;>
      norm_num [get_retry_delay, exampleStrategy, min_def, h2, h9]

/-- Witness for C6 at the worked-example strategy: the unjittered delay does
not decrease from attempt 3 to attempt 4. -/
theorem get_retry_delay_spec_witness :
    get_retry_delay exampleStrategy 0 3 ≤ get_retry_delay exampleStrategy 0 (3 + 1) :=
  (get_retry_delay_spec exampleStrategy 0 3).2.2.2.1 rfl (by decide) (by decide) (by decide)

/-- A strategy with `max_retries = 0` and jitter disabled. -/
def zeroBudgetStrategy : RetryStrategy :=
  { max_retries := 0, initial_delay := 1, max_delay := 60, backoff_factor := 2,
    jitter := false }

/-- C2 counterexample: with the legal configuration `max_retries = 0`, one
call of `with_retry` on a failing operation still makes one attempt and logs
one record, so the total number of attempts exceeds `max_retries`. -/
theorem with_retry_attempts_exceed_zero_budget :
    zeroBudgetStrategy.max_retries <
      (with_retry zeroBudgetStrategy zeroDraws alwaysConnError testMeta).1.length := by
  have h : (with_retry zeroBudgetStrategy zeroDraws alwaysConnError testMeta).1.length = 1 := by
    rw [with_retry, with_retry_go]
    simp [alwaysConnError, should_retry, zeroBudgetStrategy]
  rw [h]
  decide

/-- C2 (amended): for every call of `with_retry`, under every configuration,
the audit records logged are one per attempt: attempt numbers are consecutive
starting at 1, every record except the last has status `retry`, the last has
status `success` when a value is returned and `failed` when the error is
surfaced, and the total number of attempts never exceeds
`max(max_retries, 1)` (the counterexample shows one attempt is always made
even when `max_retries = 0`; for `max_retries ≥ 1` the bound is
`max_retries` itself). -/
theorem with_retry_audit_trail {A : Type} (s : RetryStrategy) (us : Nat → Rat)
    (ops : Nat → Except PyError A) (m : RetryMeta) :
    1 ≤ (with_retry s us ops m).1.length ∧
    (with_retry s us ops m).1.length ≤ max s.max_retries 1 ∧
    (with_retry s us ops m).1.map (fun r => (r.attempt, r.status)) =
      ((List.range ((with_retry s us ops m).1.length - 1)).map
          (fun i => (i + 1, "retry"))) ++
        [((with_retry s us ops m).1.length,
          match (with_retry s us ops m).2 with
          | Except.ok _ => "success"
          | Except.error _ => "failed")] := by
  obtain ⟨k, h1, h2, h3⟩ := with_retry_go_spec s us ops m s.max_retries 1 (by omega)
  have hlen : (with_retry s us ops m).1.length = k + 1 := by
    rw [with_retry, h1]
    simp
  refine ⟨by omega, ?_, ?_⟩
  · rw [hlen]
    cases k with
    | zero => exact le_max_right _ _
    | succ k' =>
      have hr := (h2 k' (by omega)).1
      have hk := should_retry_lt _ _ _ hr
      calc k' + 1 + 1 ≤ s.max_retries := by omega
        _ ≤ max s.max_retries 1 := le_max_left _ _
  · rw [hlen, with_retry, h1]
    simp only [List.map_append, List.map_map, List.map_cons, List.map_nil,
      Nat.add_sub_cancel]
    congr 1
    · apply List.map_congr_left
      intro j _
      simp only [Function.comp, retryRecAt, retryRecord]
      rw [Nat.add_comm 1 j]
    · rcases hres : (with_retry_go s us ops m 1).2 with e | v <;>
        simp [finalRec, failedRecord, successRecord, Nat.add_comm 1 k]

/-- C7: whenever `should_retry` denies a retry and `with_retry` surfaces an
error, exactly one logged record has status `failed`, it is the last record
and carries the final attempt number, and the surfaced error is the very
error the operation raised on that final attempt (re-raised unchanged, not
wrapped). -/
theorem with_retry_failure_reraises {A : Type} (s : RetryStrategy) (us : Nat → Rat)
    (ops : Nat → Except PyError A) (m : RetryMeta) (e : PyError)
    (h : (with_retry s us ops m).2 = Except.error e) :
    (with_retry s us ops m).1.countP (fun r => r.status == "failed") = 1 ∧
    (with_retry s us ops m).1.getLast? =
      some (failedRecord m ((with_retry s us ops m).1.length) e) ∧
    ops ((with_retry s us ops m).1.length) = Except.error e := by
  obtain ⟨k, h1, h2, h3⟩ := with_retry_go_spec s us ops m s.max_retries 1 (by omega)
  rw [with_retry] at h
  rw [h] at h1 h3
  simp only at h3
  have hlen : (with_retry s us ops m).1.length = k + 1 := by
    rw [with_retry, h1]
    simp
  have hretry : ∀ r ∈ (List.range k).map (fun j => retryRecAt s us ops m (1 + j)),
      (r.status == "failed") = false := by
    intro r hr
    obtain ⟨j, _, rfl⟩ := List.mem_map.mp hr
    simp [retryRecAt, retryRecord]
  refine ⟨?_, ?_, ?_⟩
  · rw [with_retry, h1, List.countP_append]
    have hz : ((List.range k).map (fun j => retryRecAt s us ops m (1 + j))).countP
        (fun r => r.status == "failed") = 0 := by
      rw [List.countP_eq_zero]
      intro r hr
      simp [hretry r hr]
    rw [hz]
    simp [finalRec, failedRecord, List.countP_cons]
  · rw [hlen, with_retry, h1, List.getLast?_concat]
    simp [finalRec, Nat.add_comm 1 k]
  · rw [hlen, Nat.add_comm k 1]
    exact h3.1

/-- A strategy with `max_retries = 2` and jitter disabled. -/
def smallStrategy : RetryStrategy :=
  { max_retries := 2, initial_delay := 1, max_delay := 60, backoff_factor := 2,
    jitter := false }

/-- Witness for C7: under `max_retries = 2`, an operation that raises a
`ConnectionError` on every attempt surfaces, after the final attempt, the
error raised by the operation itself. -/
theorem with_retry_failure_reraises_witness :
    alwaysConnError
        ((with_retry smallStrategy zeroDraws alwaysConnError testMeta).1.length) =
      Except.error ⟨ErrKind.connectionError, "connection refused"⟩ :=
  (with_retry_failure_reraises smallStrategy zeroDraws alwaysConnError testMeta
    ⟨ErrKind.connectionError, "connection refused"⟩ (by
      simp [with_retry, with_retry_go, alwaysConnError, should_retry,
        smallStrategy])).2.2

theorem chunksOfAux_flatten {A : Type} (k : Nat) (hk : 1 ≤ k) :
    ∀ (fuel : Nat) (l : List A), l.length ≤ fuel →
      (chunksOfAux k fuel l).flatten = l := by
  intro fuel
  induction fuel with
  | zero =>
    intro l hl
    cases l with
    | nil => rfl
    | cons a t => simp at hl
  | succ f ih =>
    intro l hl
    cases l with
    | nil => rfl
    | cons a t =>
      show ((a :: t).take k :: chunksOfAux k f ((a :: t).drop k)).flatten = a :: t
      rw [List.flatten_cons, ih ((a :: t).drop k)
        (by simp only [List.length_drop, List.length_cons] at hl ⊢; omega)]
      exact List.take_append_drop k (a :: t)

theorem chunksOf_flatten {A : Type} (k : Nat) (hk : 1 ≤ k) (l : List A) :
    (chunksOf k l).flatten = l :=
  chunksOfAux_flatten k hk l.length l le_rfl

theorem flatten_map_map {A B : Type} (g : A → B) :
    ∀ (L : List (List A)), (L.map (List.map g)).flatten = L.flatten.map g := by
  intro L
  induction L with
  | nil => rfl
  | cons x xs ih =>
    simp only [List.map_cons, List.flatten_cons, List.map_append, ih]

theorem length_filterMap_eq_countP {A B : Type} (f : A → Option B) (l : List A) :
    (l.filterMap f).length = l.countP (fun x => (f x).isSome) := by
  induction l with
  | nil => rfl
  | cons a t ih =>
    cases hfa : f a <;>
      simp [List.filterMap_cons, hfa, List.countP_cons, ih]

theorem toUpdate_isSome (g : String → GeoStatus) (pname ts : String) (a : Asset) :
    (toUpdate (geocode_location g pname ts a)).isSome =
      (g a.location_description).isOK := by
  cases h : g a.location_description <;>
    simp [toUpdate, geocode_location, GeoStatus.isOK, h]

theorem update_geodata_count (results : List GeocodeResult) (store : GeodataFile) :
    (update_geodata_with_results true results store).count =
      (results.filterMap toUpdate).length := by
  simp only [update_geodata_with_results, if_true]
  split_ifs <;> rfl

/-- C4: for every supplied work-item list, `run_geocoding_batch` (with the
store validation succeeding) returns the pair (count of results with status
OK, total number of items attempted after the optional truncation); and when
the list of items to process is empty it returns (0, 0) leaving the store
untouched, with no read and no write of the geodata table. -/
theorem run_geocoding_batch_spec (batch_size : Nat) (hbs : 1 ≤ batch_size)
    (geocode : String → GeoStatus) (pname ts : String) (assets : List Asset)
    (max_assets : Option Nat) (store : GeodataFile) :
    ((run_geocoding_batch batch_size geocode pname ts true assets max_assets store).success,
      (run_geocoding_batch batch_size geocode pname ts true assets max_assets store).total) =
      ((keptAssets assets max_assets).countP
          (fun a => (geocode a.location_description).isOK),
        (keptAssets assets max_assets).length) ∧
    (keptAssets assets max_assets = [] →
      run_geocoding_batch batch_size geocode pname ts true assets max_assets store =
        { success := 0, total := 0, store := store, reads := 0, writes := 0 }) := by
  have hflat : ((chunksOf batch_size (keptAssets assets max_assets)).map
      (process_asset_batch geocode pname ts)).flatten =
      (keptAssets assets max_assets).map (geocode_location geocode pname ts) := by
    show ((chunksOf batch_size (keptAssets assets max_assets)).map
      (List.map (geocode_location geocode pname ts))).flatten = _
    rw [flatten_map_map, chunksOf_flatten batch_size hbs]
  simp only [run_geocoding_batch]
  by_cases he : keptAssets assets max_assets = []
  · rw [he]
    constructor
    · simp
    · intro _
      simp
  · have hne : ¬((keptAssets assets max_assets).isEmpty = true) := by
      cases hk : keptAssets assets max_assets with
      | nil => exact absurd hk he
      | cons a t => simp
    rw [if_neg hne]
    constructor
    · have hcnt : (update_geodata_with_results true
          (((chunksOf batch_size (keptAssets assets max_assets)).map
            (process_asset_batch geocode pname ts)).flatten) store).count =
          (keptAssets assets max_assets).countP
            (fun a => (geocode a.location_description).isOK) := by
        rw [update_geodata_count, hflat, List.filterMap_map,
          length_filterMap_eq_countP]
        apply List.countP_congr
        intro a _
        simp only [Function.comp_apply, toUpdate_isSome]
      simp only [hcnt]
    · intro h
      exact absurd h he

/-- The provider map used in concrete batch runs: location "ok" geocodes, any
other location is not found. -/
def geocodeOkOnly : String → GeoStatus :=
  fun loc => if loc == "ok" then GeoStatus.ok 30 (-80) (some 10) (some "somewhere") else
    GeoStatus.notFound

/-- Concrete assets for the C4 witness. -/
def threeAssets : List Asset :=
  [{ asset_id := "A-1", location_description := "ok" },
   { asset_id := "A-2", location_description := "missing" },
   { asset_id := "A-3", location_description := "ok" }]

/-- A pre-existing row of the sample geodata workbook. -/
def sampleRow : GeoRow :=
  { asset_id := "A-9", latitude := some 40, longitude := some (-75),
    geocode_source := some "API_TEST", geocode_timestamp := some "t0",
    validation_status := some "UNVERIFIED", accuracy_meters := some 10,
    address_string := some "addr" }

/-- A concrete geodata workbook with one row and two ancillary sheets. -/
def sampleStore : GeodataFile :=
  { assetGeodata := [sampleRow],
    otherSheets := [("Metadata", [["key", "value"], ["version", "1"]]),
                    ("GeocodeLog", [["timestamp", "asset_id"], ["t1", "A-1"]])] }

/-- Witness for C4: a three-item batch with batch_size 2, two of whose items
geocode OK, returns the pair (OK count, total). -/
theorem run_geocoding_batch_spec_witness :
    ((run_geocoding_batch 2 geocodeOkOnly "test" "t" true threeAssets none sampleStore).success,
      (run_geocoding_batch 2 geocodeOkOnly "test" "t" true threeAssets none sampleStore).total) =
      ((keptAssets threeAssets none).countP
          (fun a => (geocodeOkOnly a.location_description).isOK),
        (keptAssets threeAssets none).length) :=
  (run_geocoding_batch_spec 2 (by decide) geocodeOkOnly "test" "t" threeAssets none
    sampleStore).1

/-- One OK geocode result for asset A-1, as the pipeline produces it. -/
def okResultA1 : GeocodeResult :=
  { asset_id := "A-1", status := GeoStatus.ok 30 (-80) (some 10) (some "somewhere"),
    geocode_source := "API_TEST", geocode_timestamp := "t1" }

/-- C1 counterexample: merging one OK result into a store whose ancillary
sheets include a sheet named "GeocodeLog" drops that sheet from the rewritten
workbook (the save copies only the hardcoded sheets "Metadata" and
"AllowedValues"), so the merge does not preserve every ancillary sheet. -/
theorem update_geodata_drops_other_sheets :
    (sampleStore.otherSheets.lookup "GeocodeLog").isSome = true ∧
    (update_geodata_with_results true [okResultA1] sampleStore).store.otherSheets.lookup
        "GeocodeLog" = none := by
  constructor
  · decide
  · decide

/-- C1 (amended): with the store validation succeeding, the merge reads the
persisted geodata table exactly once, applies every status-OK result in
memory (updating the rows whose asset id already exists, appending a new row
when none does), performs at most one write; when at least one OK result
exists it writes the whole table back in a single write whose ancillary
content is only the sheets named "Metadata" and "AllowedValues"
(re-serialized with an added index column) — every other ancillary sheet is
dropped — and when no OK result exists nothing is written and the store is
unchanged. -/
theorem update_geodata_merge_spec (results : List GeocodeResult) (store : GeodataFile) :
    (update_geodata_with_results true results store).reads = 1 ∧
    (update_geodata_with_results true results store).writes ≤ 1 ∧
    (update_geodata_with_results true results store).count =
      (results.filterMap toUpdate).length ∧
    (update_geodata_with_results true results store).store.assetGeodata =
      (results.filterMap toUpdate).foldl (fun df u => applyUpdate u df)
        store.assetGeodata ∧
    (0 < (results.filterMap toUpdate).length →
      (update_geodata_with_results true results store).writes = 1 ∧
      (update_geodata_with_results true results store).store.otherSheets =
        preservedSheets store.otherSheets) ∧
    ((results.filterMap toUpdate).length = 0 →
      (update_geodata_with_results true results store).store = store ∧
      (update_geodata_with_results true results store).writes = 0) := by
  simp only [update_geodata_with_results, if_true]
  split_ifs with h
  · exact ⟨rfl, le_rfl, rfl, rfl, fun _ => ⟨rfl, rfl⟩, fun h0 => absurd h0 (by omega)⟩
  · have h0 : (results.filterMap toUpdate).length = 0 := by omega
    have hnil : results.filterMap toUpdate = [] := List.length_eq_zero.mp h0
    refine ⟨rfl, Nat.zero_le 1, rfl, ?_, fun hc => absurd hc (by omega),
      fun _ => ⟨rfl, rfl⟩⟩
    rw [hnil]
    rfl

/-- Witness for C1 at a concrete store and result list with one OK result:
the write is performed. -/
theorem update_geodata_merge_spec_witness :
    (update_geodata_with_results true [okResultA1] sampleStore).writes = 1 :=
  ((update_geodata_merge_spec [okResultA1] sampleStore).2.2.2.2.1 (by decide)).1

/-- C10: if the result list passed to the store merge contains no result with
status OK, the merge returns 0, performs no write of the geodata workbook,
and the persisted store (in particular the AssetGeodata table) is unchanged —
for either outcome of the preparation step. -/
theorem update_geodata_no_ok_no_write (ready : Bool) (results : List GeocodeResult)
    (store : GeodataFile) (h : ∀ r ∈ results, r.status.isOK = false) :
    (update_geodata_with_results ready results store).count = 0 ∧
    (update_geodata_with_results ready results store).writes = 0 ∧
    (update_geodata_with_results ready results store).store = store := by
  have hnil : results.filterMap toUpdate = [] := by
    rw [List.filterMap_eq_nil_iff]
    intro r hr
    have hst := h r hr
    cases hs : r.status with
    | ok lat lng acc addr =>
      rw [hs] at hst
      exact absurd hst (by simp [GeoStatus.isOK])
    | notFound => simp [toUpdate, hs]
    | geoError msg => simp [toUpdate, hs]
    | notImplemented => simp [toUpdate, hs]
    | otherStatus s2 => simp [toUpdate, hs]
  cases ready <;>
    simp [update_geodata_with_results, hnil]

/-- Two results with no OK status: one NOT_FOUND and one ERROR. -/
def noOkResults : List GeocodeResult :=
  [{ asset_id := "A-1", status := GeoStatus.notFound,
     geocode_source := "API_TEST", geocode_timestamp := "t1" },
   { asset_id := "A-2", status := GeoStatus.geoError "Internal server error 500",
     geocode_source := "API_TEST", geocode_timestamp := "t1" }]

/-- Witness for C10: merging a NOT_FOUND and an ERROR result leaves the
concrete store untouched. -/
theorem update_geodata_no_ok_no_write_witness :
    (update_geodata_with_results true noOkResults sampleStore).store = sampleStore :=
  (update_geodata_no_ok_no_write true noOkResults sampleStore (by decide)).2.2

/-- C9: if the rewrite of the audit sheet fails, `flush_logs` swallows the
exception and returns with the buffer (and the persisted records) unchanged,
so the buffered audit records are retained for the next flush; and a flush
with an empty buffer returns without performing any write. -/
theorem flush_logs_spec (writeFails readFails : Bool) (st : LoggerState) :
    (writeFails = true → flush_logs writeFails readFails st = (st, false)) ∧
    (st.logs = [] → flush_logs writeFails readFails st = (st, false)) := by
  constructor
  · intro h
    subst h
    simp [flush_logs]
  · intro h
    simp [flush_logs, h]

/-- A logger state with one buffered record and nothing persisted. -/
def bufferedState : LoggerState :=
  { logs := [failedRecord testMeta 1 ⟨ErrKind.connectionError, "connection refused"⟩],
    persisted := [] }

/-- Witness for C9: a failing write leaves a concrete one-record buffer
state unchanged and reports that no write completed. -/
theorem flush_logs_spec_witness :
    flush_logs true false bufferedState = (bufferedState, false) :=
  (flush_logs_spec true false bufferedState).1 rfl

theorem accuracy_getD_mem (i : Nat) :
    ([10, 20, 50, 100, 500] : List Rat).getD i 10 ∈
      ([10, 20, 50, 100, 500] : List Rat) := by
  rcases i with _ | _ | _ | _ | _ | n <;>
    simp [List.getD, List.getElem?_cons_succ, List.getElem?_nil]

/-- C8: two calls of `_geocode_test` with the identical address string return
the identical result whatever the incoming generator states are (the
reseeding from the address hash makes the outcome a function of the address
alone); the result has status OK with latitude in [25, 48], longitude in
[-125, -70], and an accuracy drawn from {10, 20, 50, 100, 500} determined by
the address hash. -/
theorem geocode_test_deterministic (u : Nat → Rat) (md5 : String → Nat)
    (s1 s2 : Nat) (addr : String) (hu : ∀ n, 0 ≤ u n ∧ u n < 1) :
    (geocode_test u md5 s1 addr).1 = (geocode_test u md5 s2 addr).1 ∧
    ∃ lat lng acc addrStr,
      (geocode_test u md5 s1 addr).1 = GeoStatus.ok lat lng (some acc) (some addrStr) ∧
      25 ≤ lat ∧ lat ≤ 48 ∧ -125 ≤ lng ∧ lng ≤ -70 ∧
      acc ∈ ([10, 20, 50, 100, 500] : List Rat) := by
  constructor
  · rfl
  · refine ⟨_, _, _, _, rfl, ?_, ?_, ?_, ?_, ?_⟩
    · have h0 := (hu (md5 addr)).1
      nlinarith
    · have h0 := (hu (md5 addr)).1
      have h1 := (hu (md5 addr)).2
      nlinarith
    · have h0 := (hu (md5 addr + 1)).1
      nlinarith
    · have h0 := (hu (md5 addr + 1)).1
      have h1 := (hu (md5 addr + 1)).2
      nlinarith
    · exact accuracy_getD_mem _

/-- A stable-hash stand-in used by concrete instances. -/
def md5Len : String → Nat := fun s => s.length

/-- Witness for C8: the Deterministic-Test provider called from two different
generator states with the identical address returns identical results. -/
theorem geocode_test_deterministic_witness :
    (geocode_test zeroDraws md5Len 0 "12 Main St").1 =
      (geocode_test zeroDraws md5Len 37 "12 Main St").1 :=
  (geocode_test_deterministic zeroDraws md5Len 0 37 "12 Main St"
    (fun _ => ⟨le_rfl, zero_lt_one⟩)).1
